import Mathlib

/-!
Verification of the admission-webhook decision engine in `src/app.py`
(a Flask validating webhook for Kubernetes).

The engine works on the JSON value delivered by `request.get_json()`,
so the embedding models Python values of JSON shape (`J`) together with
the dictionary/sequence operations the source uses (`d[k]`, `d.get`,
`x in d`, `for x in d`), each of which can raise in Python; raising is
modelled with `Except String`.  The handler `validate` is translated
line by line from the source.
-/

/-- A Python value of JSON shape: what `request.get_json()` can deliver. -/
inductive J where
  | null : J
  | bool : Bool → J
  | num : Int → J
  | str : String → J
  | arr : List J → J
  | obj : List (String × J) → J

/-- Lookup of a string key in a Python dict (first binding wins; a dict
parsed from JSON has unique keys, so this is exact). -/
def jLookup : List (String × J) → String → Option J
  | [], _ => none
  | (k, v) :: rest, key => if k = key then some v else jLookup rest key

/-- Python `d[key]` for a string key: the value when `d` is a dict holding
the key, `KeyError` when the key is absent, `TypeError` otherwise. -/
def pyIndex : J → String → Except String J
  | J.obj fields, key =>
      match jLookup fields key with
      | some v => Except.ok v
      | none => Except.error ("KeyError: " ++ key)
  | _, _ => Except.error "TypeError: value is not subscriptable by a string"

/-- Python `d.get(key, default)`: defined on dicts only; every other value
raises `AttributeError` (no `.get` attribute). -/
def pyGet : J → String → J → Except String J
  | J.obj fields, key, dflt => Except.ok ((jLookup fields key).getD dflt)
  | _, _, _ => Except.error "AttributeError: value has no attribute get"

/-- Python `needle in hay` for a string needle: key membership on a dict,
element membership on a list (a string equals only an equal string),
substring test on a string, `TypeError` on the rest. -/
def pyContains : J → String → Except String Bool
  | J.obj fields, key => Except.ok (jLookup fields key).isSome
  | J.arr xs, key =>
      Except.ok (xs.any fun x => match x with | J.str s => s == key | _ => false)
  | J.str s, key =>
      Except.ok (if key.isEmpty then true else decide (1 < (s.splitOn key).length))
  | _, _ => Except.error "TypeError: argument is not iterable"

/-- Python iteration `for x in v`: the elements of a list, the keys of a
dict, the characters of a string, `TypeError` on the rest. -/
def pyIterate : J → Except String (List J)
  | J.arr xs => Except.ok xs
  | J.obj fields => Except.ok (fields.map fun p => J.str p.1)
  | J.str s => Except.ok (s.data.map fun c => J.str (String.mk [c]))
  | _ => Except.error "TypeError: value is not iterable"

/-- Python `repr` of a list of strings, as an f-string renders it
(`['team', 'environment']`).  Exact for every list reachable here: the
rendered lists hold only sublists of `REQUIRED_LABELS`, whose elements
need no escaping. -/
def pyReprStrList (xs : List String) : String :=
  "[" ++ String.intercalate ", " (xs.map fun s => "'" ++ s ++ "'") ++ "]"

/-- The configuration `REQUIRED_LABELS = ["team", "environment"]` (src/app.py line 5). -/
def REQUIRED_LABELS : List String := ["team", "environment"]

/-- The body of `is_privileged`'s loop for one container:
`sec = c.get("securityContext", {})`, then
`sec.get("privileged", False) is True` (Python identity with `True`:
only the boolean `True` qualifies). -/
def containerIsPrivileged (c : J) : Except String Bool :=
  match pyGet c "securityContext" (J.obj []) with
  | Except.error e => Except.error e
  | Except.ok sec =>
      match pyGet sec "privileged" (J.bool false) with
      | Except.error e => Except.error e
      | Except.ok priv =>
          Except.ok (match priv with | J.bool true => true | _ => false)

/-- The `for c in containers` loop of `is_privileged`: return `True` at the
first privileged container, `False` past the end. -/
def scanPrivileged : List J → Except String Bool
  | [] => Except.ok false
  | c :: rest =>
      match containerIsPrivileged c with
      | Except.error e => Except.error e
      | Except.ok true => Except.ok true
      | Except.ok false => scanPrivileged rest

/-- The function `is_privileged(pod_spec)` (src/app.py lines 7-13):
`containers = pod_spec.get("containers", [])`, then scan the sequence. -/
def is_privileged (pod_spec : J) : Except String Bool :=
  match pyGet pod_spec "containers" (J.arr []) with
  | Except.error e => Except.error e
  | Except.ok containers =>
      match pyIterate containers with
      | Except.error e => Except.error e
      | Except.ok items => scanPrivileged items

/-- The comprehension `[l for l in REQUIRED_LABELS if l not in labels]`, membership raising
propagated at the first offending element, as Python evaluates it. -/
def missingLabels (labels : J) : List String → Except String (List String)
  | [] => Except.ok []
  | l :: rest =>
      match pyContains labels l with
      | Except.error e => Except.error e
      | Except.ok isIn =>
          match missingLabels labels rest with
          | Except.error e => Except.error e
          | Except.ok tail => Except.ok (if isIn then tail else l :: tail)

/-- The response payload `jsonify` serializes: the fixed envelope constants
and the `response` object's `uid`, `allowed` and optional
`status.message`. -/
structure AdmissionResponse where
  apiVersion : String
  kind : String
  uid : J
  allowed : Bool
  status : Option String

/-- A deny response as each failing branch of `validate` builds it:
`allowed: False` with `status.message` set. -/
def denyResponse (uid : J) (msg : String) : AdmissionResponse :=
  AdmissionResponse.mk "admission.k8s.io/v1" "AdmissionReview" uid false (some msg)

/-- The final allow response of `validate`: `allowed: True`, no `status`. -/
def allowResponse (uid : J) : AdmissionResponse :=
  AdmissionResponse.mk "admission.k8s.io/v1" "AdmissionReview" uid true none

/-- The handler `validate()` (src/app.py lines 15-63) applied to the parsed request
body `review`: extract `request`, `uid`, `object`, default the nested
`metadata`, `spec` and `labels`, run the label check, then the
privileged-container check, and build the response. -/
def validate (review : J) : Except String AdmissionResponse :=
  match pyIndex review "request" with
  | Except.error e => Except.error e
  | Except.ok req =>
  match pyIndex req "uid" with
  | Except.error e => Except.error e
  | Except.ok uid =>
  match pyIndex req "object" with
  | Except.error e => Except.error e
  | Except.ok obj =>
  match pyGet obj "metadata" (J.obj []) with
  | Except.error e => Except.error e
  | Except.ok metadata =>
  match pyGet obj "spec" (J.obj []) with
  | Except.error e => Except.error e
  | Except.ok spec =>
  match pyGet metadata "labels" (J.obj []) with
  | Except.error e => Except.error e
  | Except.ok labels =>
  match missingLabels labels REQUIRED_LABELS with
  | Except.error e => Except.error e
  | Except.ok missing =>
  match missing with
  | m :: ms =>
      Except.ok (denyResponse uid
        ("Missing required labels: " ++ pyReprStrList (m :: ms)))
  | [] =>
      match is_privileged spec with
      | Except.error e => Except.error e
      | Except.ok true =>
          Except.ok (denyResponse uid "Privileged containers are not allowed")
      | Except.ok false => Except.ok (allowResponse uid)

/-- The review envelope the transport layer delivers: a body whose
`request` holds `uid` and `object`. -/
def mkReview (uid obj : J) : J :=
  J.obj [("request", J.obj [("uid", uid), ("object", obj)])]

/-- An object with the shapes of the spec's data model: a labels mapping
under `metadata` and a container sequence under `spec`. -/
def mkObject (labels : List (String × J)) (containers : List J) : J :=
  J.obj [("metadata", J.obj [("labels", J.obj labels)]),
         ("spec", J.obj [("containers", J.arr containers)])]

/-- Key membership in a labels mapping. -/
def hasKey (fields : List (String × J)) (key : String) : Bool :=
  (jLookup fields key).isSome

/-- The privileged flag of a container, read as the source reads it:
`securityContext.privileged` is exactly the boolean `true`; a missing
field, or any other value, counts as not privileged. -/
def privFlag (c : J) : Bool :=
  match c with
  | J.obj fields =>
      match jLookup fields "securityContext" with
      | some (J.obj sec) =>
          match jLookup sec "privileged" with
          | some (J.bool true) => true
          | _ => false
      | some _ => false
      | none => false
  | _ => false

/-- A container the source can evaluate without raising: a dict whose
`securityContext`, when present, is itself a dict (`privileged` may hold
anything). -/
def containerWellShaped (c : J) : Bool :=
  match c with
  | J.obj fields =>
      match jLookup fields "securityContext" with
      | some (J.obj _) => true
      | some _ => false
      | none => true
  | _ => false

/-! ## Evaluation lemmas -/

/-- On a labels dict, the comprehension computes the required keys absent
from the mapping, in the configured order, and never raises. -/
theorem missingLabels_obj (fields : List (String × J)) (ls : List String) :
    missingLabels (J.obj fields) ls =
      Except.ok (ls.filter fun l => ! hasKey fields l) := by
  induction ls with
  | nil => rfl
  | cons l rest ih =>
      simp only [missingLabels, pyContains, ih, List.filter_cons, hasKey]
      cases h : (jLookup fields l).isSome <;> simp [h]

/-- On a well-shaped container the loop body computes the pure privileged
flag and never raises. -/
theorem containerIsPrivileged_wellShaped (c : J)
    (h : containerWellShaped c = true) :
    containerIsPrivileged c = Except.ok (privFlag c) := by
  cases c with
  | obj fields =>
      simp only [containerIsPrivileged, privFlag, pyGet]
      cases hsec : jLookup fields "securityContext" with
      | none => simp [hsec, jLookup]
      | some sec =>
          cases sec with
          | obj s =>
              simp only [hsec, Option.getD]
              cases hp : jLookup s "privileged" with
              | none => simp [hp]
              | some v =>
                  cases v with
                  | bool b => cases b <;> simp [hp]
                  | null => simp [hp]
                  | num n => simp [hp]
                  | str t => simp [hp]
                  | arr xs => simp [hp]
                  | obj fs => simp [hp]
          | null => simp [containerWellShaped, hsec] at h
          | bool b => simp [containerWellShaped, hsec] at h
          | num n => simp [containerWellShaped, hsec] at h
          | str s => simp [containerWellShaped, hsec] at h
          | arr xs => simp [containerWellShaped, hsec] at h
  | null => simp [containerWellShaped] at h
  | bool b => simp [containerWellShaped] at h
  | num n => simp [containerWellShaped] at h
  | str s => simp [containerWellShaped] at h
  | arr xs => simp [containerWellShaped] at h

/-- The scan over well-shaped containers computes `List.any privFlag`. -/
theorem scanPrivileged_wellShaped (cs : List J)
    (h : ∀ c ∈ cs, containerWellShaped c = true) :
    scanPrivileged cs = Except.ok (cs.any privFlag) := by
  induction cs with
  | nil => rfl
  | cons c rest ih =>
      have hc := h c (List.mem_cons_self c rest)
      rw [scanPrivileged, containerIsPrivileged_wellShaped c hc]
      cases hp : privFlag c with
      | true => simp [hp, List.any_cons]
      | false =>
          simp only [List.any_cons, hp, Bool.false_or]
          exact ih fun x hx => h x (List.mem_cons_of_mem c hx)

/-- Running `is_privileged` on a spec holding a sequence of well-shaped containers
computes `List.any privFlag`. -/
theorem is_privileged_containers (cs : List J)
    (h : ∀ c ∈ cs, containerWellShaped c = true) :
    is_privileged (J.obj [("containers", J.arr cs)]) =
      Except.ok (cs.any privFlag) := by
  have hred : is_privileged (J.obj [("containers", J.arr cs)]) =
      scanPrivileged cs := rfl
  rw [hred, scanPrivileged_wellShaped cs h]

/-- Running `validate` on a body holding `request.uid` and `request.object`, once
the three nested `get`s succeed: the label check runs first, then the
privileged check. -/
theorem validate_mkReview (uid obj metadata spec labels : J)
    (hm : pyGet obj "metadata" (J.obj []) = Except.ok metadata)
    (hs : pyGet obj "spec" (J.obj []) = Except.ok spec)
    (hl : pyGet metadata "labels" (J.obj []) = Except.ok labels) :
    validate (mkReview uid obj) =
      match missingLabels labels REQUIRED_LABELS with
      | Except.error e => Except.error e
      | Except.ok (m :: ms) =>
          Except.ok (denyResponse uid
            ("Missing required labels: " ++ pyReprStrList (m :: ms)))
      | Except.ok [] =>
          match is_privileged spec with
          | Except.error e => Except.error e
          | Except.ok true =>
              Except.ok (denyResponse uid "Privileged containers are not allowed")
          | Except.ok false => Except.ok (allowResponse uid) := by
  unfold validate
  have e1 : pyIndex (mkReview uid obj) "request" =
      Except.ok (J.obj [("uid", uid), ("object", obj)]) := rfl
  have e2 : pyIndex (J.obj [("uid", uid), ("object", obj)]) "uid" =
      Except.ok uid := rfl
  have e3 : pyIndex (J.obj [("uid", uid), ("object", obj)]) "object" =
      Except.ok obj := rfl
  rw [e1]
  simp only [e2, e3, hm, hs, hl]
  cases missingLabels labels REQUIRED_LABELS with
  | error e => rfl
  | ok missing => cases missing <;> rfl

/-- Running `validate` on a structured object (a labels mapping under `metadata`,
a sequence of well-shaped containers under `spec`): the decision is a
pure function of the missing required keys and the privileged flags. -/
theorem validate_mkObject (uid : J) (labels : List (String × J)) (cs : List J)
    (hw : ∀ c ∈ cs, containerWellShaped c = true) :
    validate (mkReview uid (mkObject labels cs)) =
      match REQUIRED_LABELS.filter (fun l => ! hasKey labels l) with
      | m :: ms =>
          Except.ok (denyResponse uid
            ("Missing required labels: " ++ pyReprStrList (m :: ms)))
      | [] =>
          if cs.any privFlag then
            Except.ok (denyResponse uid "Privileged containers are not allowed")
          else Except.ok (allowResponse uid) := by
  rw [validate_mkReview uid (mkObject labels cs)
        (J.obj [("labels", J.obj labels)]) (J.obj [("containers", J.arr cs)])
        (J.obj labels) rfl rfl rfl,
      missingLabels_obj labels REQUIRED_LABELS]
  cases REQUIRED_LABELS.filter (fun l => ! hasKey labels l) with
  | cons m ms => rfl
  | nil =>
      rw [is_privileged_containers cs hw]
      cases cs.any privFlag <;> rfl

/-! ## The spec's rule pipeline (§4.1-§4.3), for the refinement claim -/

/-- Following the spec §4.1: the Required-Labels Policy Rule, an optional
violation message over the labels mapping. -/
def labelsRule (labels : J) : Except String (Option String) :=
  match missingLabels labels REQUIRED_LABELS with
  | Except.error e => Except.error e
  | Except.ok [] => Except.ok none
  | Except.ok (m :: ms) =>
      Except.ok (some ("Missing required labels: " ++ pyReprStrList (m :: ms)))

/-- Following the spec §4.2: the No-Privileged-Containers Policy Rule, an
optional violation message over the object spec. -/
def privilegedRule (spec : J) : Except String (Option String) :=
  match is_privileged spec with
  | Except.error e => Except.error e
  | Except.ok true => Except.ok (some "Privileged containers are not allowed")
  | Except.ok false => Except.ok none

/-- Following the spec §4.3: run the rules in the declared order — labels
rule first, privileged-container rule second — and keep the first
violation. -/
def firstViolation (labels spec : J) : Except String (Option String) :=
  match labelsRule labels with
  | Except.error e => Except.error e
  | Except.ok (some msg) => Except.ok (some msg)
  | Except.ok none => privilegedRule spec

/-- If two container lists carry the same privileged flags, the scans
agree. -/
theorem any_privFlag_of_map_eq (cs1 cs2 : List J)
    (h : cs1.map privFlag = cs2.map privFlag) :
    cs1.any privFlag = cs2.any privFlag := by
  have e : ∀ cs : List J, cs.any privFlag = (cs.map privFlag).any id := by
    intro cs
    induction cs with
    | nil => rfl
    | cons c rest ih => simp [List.any_cons, ih]
  rw [e cs1, e cs2, h]

/-- A container that is privileged. -/
def privTrueContainer : J :=
  J.obj [("securityContext", J.obj [("privileged", J.bool true)])]

/-- A container whose `privileged` field holds the number 1: in Python
`1 is True` is false, so it does not count as privileged. -/
def privOneContainer : J :=
  J.obj [("securityContext", J.obj [("privileged", J.num 1)])]

/-- A labels mapping holding both required keys. -/
def fullLabels : List (String × J) :=
  [("team", J.str "x"), ("environment", J.str "prod")]

/-! ## The claims -/

/-- Claim C1: on every admission request (uid and object present) whose
`metadata`, `spec` and `labels` extractions succeed, the engine runs the
required-labels rule before the privileged-container rule and returns the
verdict of the first rule reporting a violation, the allow verdict when
both pass; in particular, when both rules would fail the reported message
is the required-labels message. -/
theorem validate_runsRulesInDeclaredOrder (uid obj metadata spec labels : J)
    (hm : pyGet obj "metadata" (J.obj []) = Except.ok metadata)
    (hs : pyGet obj "spec" (J.obj []) = Except.ok spec)
    (hl : pyGet metadata "labels" (J.obj []) = Except.ok labels) :
    (validate (mkReview uid obj) =
      match firstViolation labels spec with
      | Except.error e => Except.error e
      | Except.ok (some msg) => Except.ok (denyResponse uid msg)
      | Except.ok none => Except.ok (allowResponse uid))
    ∧ (∀ lMsg pMsg, labelsRule labels = Except.ok (some lMsg) →
        privilegedRule spec = Except.ok (some pMsg) →
        validate (mkReview uid obj) = Except.ok (denyResponse uid lMsg)) := by
  have hmain : validate (mkReview uid obj) =
      match firstViolation labels spec with
      | Except.error e => Except.error e
      | Except.ok (some msg) => Except.ok (denyResponse uid msg)
      | Except.ok none => Except.ok (allowResponse uid) := by
    rw [validate_mkReview uid obj metadata spec labels hm hs hl]
    unfold firstViolation labelsRule privilegedRule
    cases missingLabels labels REQUIRED_LABELS with
    | error e => rfl
    | ok missing =>
        cases missing with
        | cons m ms => rfl
        | nil =>
            cases is_privileged spec with
            | error e => rfl
            | ok b => cases b <;> rfl
  refine ⟨hmain, fun lMsg pMsg hL hP => ?_⟩
  rw [hmain]
  unfold firstViolation
  rw [hL]

/-- Witness for C1 at a request failing both rules (no labels, one
privileged container): the reported message is the required-labels one. -/
theorem validate_runsRulesInDeclaredOrder_witness :
    validate (mkReview (J.str "w1") (mkObject [] [privTrueContainer])) =
      Except.ok (denyResponse (J.str "w1")
        "Missing required labels: ['team', 'environment']") :=
  (validate_runsRulesInDeclaredOrder (J.str "w1") (mkObject [] [privTrueContainer])
      (J.obj [("labels", J.obj [])]) (J.obj [("containers", J.arr [privTrueContainer])])
      (J.obj []) rfl rfl rfl).2
    "Missing required labels: ['team', 'environment']"
    "Privileged containers are not allowed" rfl rfl

/-- Claim C2: a request missing at least one required label key is denied
with the message listing exactly the missing keys in the configured
order. -/
theorem missingLabels_exactMessage (uid specJ : J) (labels : List (String × J))
    (h : REQUIRED_LABELS.filter (fun l => ! hasKey labels l) ≠ []) :
    validate (mkReview uid (J.obj [("metadata", J.obj [("labels", J.obj labels)]),
        ("spec", specJ)])) =
      Except.ok (denyResponse uid ("Missing required labels: " ++
        pyReprStrList (REQUIRED_LABELS.filter fun l => ! hasKey labels l))) := by
  rw [validate_mkReview uid
        (J.obj [("metadata", J.obj [("labels", J.obj labels)]), ("spec", specJ)])
        (J.obj [("labels", J.obj labels)]) specJ
        (J.obj labels) rfl rfl rfl,
      missingLabels_obj]
  cases hf : REQUIRED_LABELS.filter (fun l => ! hasKey labels l) with
  | nil => exact absurd hf h
  | cons m ms => rfl

/-- Witness for C2 at the empty labels mapping: both keys reported, in the
configured (non-alphabetical) order, with the exact literal rendering. -/
theorem missingLabels_exactMessage_witness :
    (REQUIRED_LABELS.filter (fun l => ! hasKey ([] : List (String × J)) l) ≠ [])
    ∧ validate (mkReview (J.str "w2") (J.obj [("metadata", J.obj [("labels", J.obj [])]),
        ("spec", J.num 3)])) =
      Except.ok (denyResponse (J.str "w2")
        "Missing required labels: ['team', 'environment']") :=
  ⟨by decide, missingLabels_exactMessage (J.str "w2") (J.num 3) [] (by decide)⟩

/-- Claim C3: over well-shaped container sequences the privileged rule
fails exactly when some container has `securityContext.privileged` equal
to the boolean `true` (a missing or non-boolean value never counts), the
empty sequence passes, and a failing request is denied with the fixed
message whatever and however many containers are privileged. -/
theorem is_privileged_characterization (uid : J) (cs : List J)
    (hw : ∀ c ∈ cs, containerWellShaped c = true) :
    is_privileged (J.obj [("containers", J.arr cs)]) = Except.ok (cs.any privFlag)
    ∧ is_privileged (J.obj [("containers", J.arr [])]) = Except.ok false
    ∧ (cs.any privFlag = true →
        validate (mkReview uid (mkObject fullLabels cs)) =
          Except.ok (denyResponse uid "Privileged containers are not allowed")) := by
  refine ⟨is_privileged_containers cs hw, rfl, fun hp => ?_⟩
  rw [validate_mkObject uid fullLabels cs hw]
  have hfil : REQUIRED_LABELS.filter (fun l => ! hasKey fullLabels l) = [] := rfl
  simp only [hfil, hp, if_true]

/-- Witness for C3: two containers, the first with `privileged` set to the
number 1 (not the boolean `true`), the second genuinely privileged: the
rule fires and the request with full labels is denied with the fixed
message. -/
theorem is_privileged_characterization_witness :
    is_privileged (J.obj [("containers", J.arr [privOneContainer, privTrueContainer])]) =
      Except.ok true
    ∧ validate (mkReview (J.str "w3") (mkObject fullLabels
        [privOneContainer, privTrueContainer])) =
      Except.ok (denyResponse (J.str "w3") "Privileged containers are not allowed") := by
  have h := is_privileged_characterization (J.str "w3")
    [privOneContainer, privTrueContainer] (by decide)
  exact ⟨h.1, h.2.2 rfl⟩

/-- Counterexample to claim C4 as stated: a request with one privileged
container but the `environment` label missing is denied with the
required-labels message, not the fixed privileged-container message. -/
theorem privilegedDeny_counterexample :
    ([privTrueContainer].any privFlag = true)
    ∧ validate (mkReview (J.str "c4") (mkObject [("team", J.str "x")]
        [privTrueContainer])) =
      Except.ok (denyResponse (J.str "c4") "Missing required labels: ['environment']")
    ∧ "Missing required labels: ['environment']" ≠
        "Privileged containers are not allowed" :=
  ⟨rfl, rfl, by decide⟩

/-- Claim C4 as amended: a request with at least one privileged container
is always denied; the message is the fixed privileged-container message
when every required label is present, and otherwise the required-labels
message, since the label rule runs first and short-circuits. -/
theorem privilegedAlwaysDenied (uid : J) (labels : List (String × J)) (cs : List J)
    (hw : ∀ c ∈ cs, containerWellShaped c = true)
    (hp : cs.any privFlag = true) :
    validate (mkReview uid (mkObject labels cs)) =
      Except.ok (match REQUIRED_LABELS.filter (fun l => ! hasKey labels l) with
        | [] => denyResponse uid "Privileged containers are not allowed"
        | m :: ms => denyResponse uid
            ("Missing required labels: " ++ pyReprStrList (m :: ms))) := by
  rw [validate_mkObject uid labels cs hw]
  cases REQUIRED_LABELS.filter (fun l => ! hasKey labels l) with
  | cons m ms => rfl
  | nil => simp only [hp, if_true]

/-- Witness for the amended C4, at full labels and one privileged
container: the denial carries the privileged-container message. -/
theorem privilegedAlwaysDenied_witness :
    ([privTrueContainer].any privFlag = true)
    ∧ validate (mkReview (J.str "w4") (mkObject fullLabels [privTrueContainer])) =
        Except.ok (denyResponse (J.str "w4") "Privileged containers are not allowed") :=
  ⟨rfl, privilegedAlwaysDenied (J.str "w4") fullLabels [privTrueContainer]
    (by decide) rfl⟩

/-- Evaluation past the labels rule: the verdict once every required label
is present, a pure function of the object spec alone. -/
def privilegedStage (uid specJ : J) : Except String AdmissionResponse :=
  match is_privileged specJ with
  | Except.error e => Except.error e
  | Except.ok true =>
      Except.ok (denyResponse uid "Privileged containers are not allowed")
  | Except.ok false => Except.ok (allowResponse uid)

/-- Claim C5: when the labels mapping holds every required key the
required-labels rule passes — whatever other labels are present and
whatever the values, an empty-string value included — and the verdict is
decided by the remaining rule alone. -/
theorem labelsRulePassesWhenAllPresent (uid specJ : J) (labels : List (String × J))
    (h : ∀ l ∈ REQUIRED_LABELS, hasKey labels l = true) :
    labelsRule (J.obj labels) = Except.ok none
    ∧ validate (mkReview uid (J.obj [("metadata", J.obj [("labels", J.obj labels)]),
        ("spec", specJ)])) = privilegedStage uid specJ := by
  have hfil : REQUIRED_LABELS.filter (fun l => ! hasKey labels l) = [] := by
    rw [List.filter_eq_nil_iff]
    intro a ha
    simp [h a ha]
  constructor
  · unfold labelsRule
    rw [missingLabels_obj, hfil]
  · rw [validate_mkReview uid
          (J.obj [("metadata", J.obj [("labels", J.obj labels)]), ("spec", specJ)])
          (J.obj [("labels", J.obj labels)]) specJ (J.obj labels) rfl rfl rfl,
        missingLabels_obj, hfil]
    unfold privilegedStage
    cases is_privileged specJ with
    | error e => rfl
    | ok b => cases b <;> rfl

/-- Witness for C5: both required keys mapped to the empty string, an
extra label present, and an empty object spec give the allow verdict. -/
theorem labelsRulePassesWhenAllPresent_witness :
    labelsRule (J.obj [("team", J.str ""), ("environment", J.str ""),
        ("extra", J.bool true)]) = Except.ok none
    ∧ validate (mkReview (J.str "w5") (J.obj [("metadata", J.obj [("labels",
        J.obj [("team", J.str ""), ("environment", J.str ""),
          ("extra", J.bool true)])]), ("spec", J.obj [])])) =
      Except.ok (allowResponse (J.str "w5")) :=
  labelsRulePassesWhenAllPresent (J.str "w5") (J.obj [])
    [("team", J.str ""), ("environment", J.str ""), ("extra", J.bool true)]
    (by decide)

/-- A well-formed-but-incomplete object: `metadata` may be absent
(`none`), present without `labels` (`some none`), or present with a
labels mapping (`some (some ls)`); likewise `spec` with `containers`.
Every combination of absences the claim quantifies over is an instance. -/
def mkPartialObject (md : Option (Option (List (String × J))))
    (sp : Option (Option (List J))) : J :=
  J.obj ((match md with
      | none => []
      | some none => [("metadata", J.obj [])]
      | some (some ls) => [("metadata", J.obj [("labels", J.obj ls)])]) ++
    (match sp with
      | none => []
      | some none => [("spec", J.obj [])]
      | some (some cs) => [("spec", J.obj [("containers", J.arr cs)])]))

/-- The labels mapping an incomplete object effectively carries: empty
when `metadata` or `labels` is absent. -/
def labelsOf (md : Option (Option (List (String × J)))) : List (String × J) :=
  match md with
  | some (some ls) => ls
  | _ => []

/-- The container sequence an incomplete object effectively carries:
empty when `spec` or `containers` is absent. -/
def containersOf (sp : Option (Option (List J))) : List J :=
  match sp with
  | some (some cs) => cs
  | _ => []

/-- Running `validate` on an incomplete object is running it on the
object whose missing `metadata`, `labels`, `spec` or `containers` are
replaced by the explicit empty mapping/sequence: each absent field is
defaulted by the corresponding `.get`, so the two evaluations are
definitionally the same, whatever the present parts hold.  Proved by
cases on which fields are absent. -/
theorem validate_mkPartialObject (uid : J)
    (md : Option (Option (List (String × J)))) (sp : Option (Option (List J))) :
    validate (mkReview uid (mkPartialObject md sp)) =
      validate (mkReview uid (mkObject (labelsOf md) (containersOf sp))) := by
  match md, sp with
  | none, none => rfl
  | none, some none => rfl
  | none, some (some cs) => rfl
  | some none, none => rfl
  | some none, some none => rfl
  | some none, some (some cs) => rfl
  | some (some ls), none => rfl
  | some (some ls), some none => rfl
  | some (some ls), some (some cs) => rfl

/-- Claim C6: every well-formed-but-incomplete request (uid and object
present; `metadata`, `labels`, `spec` or `containers` each possibly
absent, with arbitrary content where present) never raises: it evaluates
exactly like the request with the missing fields replaced by the empty
mapping/sequence, a verdict is always produced, an object with no labels
is denied for the missing labels whatever its spec, and an object with
no containers whose labels are complete passes the privileged rule and
is allowed. -/
theorem incompleteRequestsEvaluate (uid : J)
    (md : Option (Option (List (String × J)))) (sp : Option (Option (List J)))
    (hw : ∀ c ∈ containersOf sp, containerWellShaped c = true) :
    (validate (mkReview uid (mkPartialObject md sp)) =
      validate (mkReview uid (mkObject (labelsOf md) (containersOf sp))))
    ∧ (∃ resp, validate (mkReview uid (mkPartialObject md sp)) = Except.ok resp)
    ∧ (labelsOf md = [] →
        validate (mkReview uid (mkPartialObject md sp)) =
          Except.ok (denyResponse uid
            "Missing required labels: ['team', 'environment']"))
    ∧ (containersOf sp = [] →
        (∀ l ∈ REQUIRED_LABELS, hasKey (labelsOf md) l = true) →
        validate (mkReview uid (mkPartialObject md sp)) =
          Except.ok (allowResponse uid)) := by
  have hN : validate (mkReview uid (mkPartialObject md sp)) =
      match REQUIRED_LABELS.filter (fun l => ! hasKey (labelsOf md) l) with
      | m :: ms =>
          Except.ok (denyResponse uid
            ("Missing required labels: " ++ pyReprStrList (m :: ms)))
      | [] =>
          if (containersOf sp).any privFlag then
            Except.ok (denyResponse uid "Privileged containers are not allowed")
          else Except.ok (allowResponse uid) := by
    rw [validate_mkPartialObject uid md sp,
        validate_mkObject uid (labelsOf md) (containersOf sp) hw]
  refine ⟨validate_mkPartialObject uid md sp, ?_, ?_, ?_⟩
  · rw [hN]
    cases REQUIRED_LABELS.filter (fun l => ! hasKey (labelsOf md) l) with
    | cons m ms => exact ⟨_, rfl⟩
    | nil =>
        cases h2 : (containersOf sp).any privFlag with
        | true =>
            exact ⟨denyResponse uid "Privileged containers are not allowed",
              by simp [h2]⟩
        | false => exact ⟨allowResponse uid, by simp [h2]⟩
  · intro hl
    rw [hN]
    simp only [hl]
    rfl
  · intro hc hlab
    have hfil : REQUIRED_LABELS.filter (fun l => ! hasKey (labelsOf md) l) = [] := by
      rw [List.filter_eq_nil_iff]
      intro a ha
      simp [hlab a ha]
    rw [hN]
    simp [hfil, hc]

/-- Witness for C6: metadata absent while the spec is present with a
privileged container — the request evaluates like its defaulted form and
is denied for the missing labels, not evaluated to an error. -/
theorem incompleteRequestsEvaluate_witness :
    (validate (mkReview (J.str "w6")
        (mkPartialObject none (some (some [privTrueContainer])))) =
      validate (mkReview (J.str "w6") (mkObject [] [privTrueContainer])))
    ∧ validate (mkReview (J.str "w6")
        (mkPartialObject none (some (some [privTrueContainer])))) =
      Except.ok (denyResponse (J.str "w6")
        "Missing required labels: ['team', 'environment']") := by
  have h := incompleteRequestsEvaluate (J.str "w6") none
    (some (some [privTrueContainer])) (by decide)
  exact ⟨h.1, h.2.2.1 rfl⟩


/-- Counterexample to claim C7 as stated: a container whose
`securityContext` field has an unexpected shape (a string instead of a
mapping) makes the evaluation fail — `sec.get("privileged", False)`
raises `AttributeError` on a non-dict — so the request with full labels
produces an error, not a verdict. -/
theorem containerShape_counterexample :
    validate (mkReview (J.str "c7") (mkObject fullLabels
        [J.obj [("securityContext", J.str "restricted")]])) =
      Except.error "AttributeError: value has no attribute get" := rfl

/-- Claim C7 as amended: only the `securityContext.privileged` flag of a
container is consumed — two containers agreeing on their
`securityContext` field evaluate alike, every other field being ignored —
and a container whose `securityContext` is absent or is a mapping never
fails, whatever shape its `privileged` field has; only a `securityContext`
present with a non-mapping value makes evaluation fail. -/
theorem containerFieldConsumption :
    (∀ f g : List (String × J),
      jLookup f "securityContext" = jLookup g "securityContext" →
      containerIsPrivileged (J.obj f) = containerIsPrivileged (J.obj g))
    ∧ (∀ f : List (String × J), containerWellShaped (J.obj f) = true →
        ∃ b, containerIsPrivileged (J.obj f) = Except.ok b) := by
  constructor
  · intro f g hfg
    unfold containerIsPrivileged
    have e : ∀ h : List (String × J), pyGet (J.obj h) "securityContext" (J.obj []) =
        Except.ok ((jLookup h "securityContext").getD (J.obj [])) := fun h => rfl
    rw [e f, e g, hfg]
  · intro f hf
    exact ⟨privFlag (J.obj f), containerIsPrivileged_wellShaped (J.obj f) hf⟩

/-- Witness for the amended C7: a container with an extra `image` field
and `privileged` set to the number 1 evaluates like the container without
the extra field, and evaluates to a verdict (not an error). -/
theorem containerFieldConsumption_witness :
    (jLookup [("securityContext", J.obj [("privileged", J.num 1)]),
        ("image", J.str "nginx")] "securityContext" =
      jLookup [("securityContext", J.obj [("privileged", J.num 1)])] "securityContext")
    ∧ containerIsPrivileged (J.obj [("securityContext",
        J.obj [("privileged", J.num 1)]), ("image", J.str "nginx")]) =
      containerIsPrivileged (J.obj [("securityContext",
        J.obj [("privileged", J.num 1)])])
    ∧ containerWellShaped (J.obj [("securityContext",
        J.obj [("privileged", J.num 1)])]) = true
    ∧ ∃ b, containerIsPrivileged (J.obj [("securityContext",
        J.obj [("privileged", J.num 1)])]) = Except.ok b :=
  ⟨rfl,
   containerFieldConsumption.1
     [("securityContext", J.obj [("privileged", J.num 1)]), ("image", J.str "nginx")]
     [("securityContext", J.obj [("privileged", J.num 1)])] rfl,
   rfl,
   containerFieldConsumption.2
     [("securityContext", J.obj [("privileged", J.num 1)])] rfl⟩

/-- Claim C8: every verdict `validate` produces carries a `status` message
exactly when it denies — a deny verdict always holds a message, the allow
verdict holds no `status` field at all. -/
theorem messagePresentIffDenied (review : J) (resp : AdmissionResponse)
    (h : validate review = Except.ok resp) :
    resp.status.isSome = true ↔ resp.allowed = false := by
  unfold validate at h
  repeat' split at h
  all_goals first
    | exact Except.noConfusion h
    | (injection h with h2; subst h2; simp [denyResponse, allowResponse])

/-- Witness for C8 at an allowed request: the allow verdict has no message
and is not a denial. -/
theorem messagePresentIffDenied_witness :
    (allowResponse (J.str "w8")).status.isSome = true ↔
      (allowResponse (J.str "w8")).allowed = false :=
  messagePresentIffDenied (mkReview (J.str "w8") (mkObject fullLabels []))
    (allowResponse (J.str "w8")) rfl

/-- Claim C9: whatever verdict `validate` reaches, the `uid` in the
response is the very value extracted from the request. -/
theorem uidEchoed (review req uid : J) (resp : AdmissionResponse)
    (hreq : pyIndex review "request" = Except.ok req)
    (huid : pyIndex req "uid" = Except.ok uid)
    (h : validate review = Except.ok resp) :
    resp.uid = uid := by
  unfold validate at h
  rw [hreq] at h
  simp only [huid] at h
  repeat' split at h
  all_goals first
    | exact Except.noConfusion h
    | (injection h with h2; subst h2; rfl)

/-- Witness for C9 at a denied request: the response echoes the uid. -/
theorem uidEchoed_witness :
    (denyResponse (J.str "w9") "Privileged containers are not allowed").uid =
      J.str "w9" :=
  uidEchoed (mkReview (J.str "w9") (mkObject fullLabels [privTrueContainer]))
    (J.obj [("uid", J.str "w9"), ("object", mkObject fullLabels [privTrueContainer])])
    (J.str "w9")
    (denyResponse (J.str "w9") "Privileged containers are not allowed")
    rfl rfl rfl

/-- Claim C10: noninterference of non-policy fields — two requests that
agree on which label keys are present and on the per-container privileged
flags get the same `allowed` flag and the same message, whatever their
uids, label values and other object fields; the uid only reaches the
echoed `uid` field. -/
theorem decisionNoninterference (uid1 uid2 : J)
    (labels1 labels2 : List (String × J)) (cs1 cs2 : List J)
    (hw1 : ∀ c ∈ cs1, containerWellShaped c = true)
    (hw2 : ∀ c ∈ cs2, containerWellShaped c = true)
    (hk : ∀ k, hasKey labels1 k = hasKey labels2 k)
    (hp : cs1.map privFlag = cs2.map privFlag) :
    (validate (mkReview uid1 (mkObject labels1 cs1))).map
        (fun r => (r.allowed, r.status)) =
      (validate (mkReview uid2 (mkObject labels2 cs2))).map
        (fun r => (r.allowed, r.status)) := by
  rw [validate_mkObject uid1 labels1 cs1 hw1, validate_mkObject uid2 labels2 cs2 hw2]
  have hfil : REQUIRED_LABELS.filter (fun l => ! hasKey labels1 l) =
      REQUIRED_LABELS.filter (fun l => ! hasKey labels2 l) := by
    apply List.filter_congr
    intro a _
    rw [hk a]
  have hany := any_privFlag_of_map_eq cs1 cs2 hp
  rw [hfil, hany]
  cases REQUIRED_LABELS.filter (fun l => ! hasKey labels2 l) with
  | cons m ms => rfl
  | nil => cases cs2.any privFlag <;> rfl

/-- Witness for C10: same label keys with different values, different
uids, one container with an extra field against one with no
`securityContext` at all — the two decisions agree. -/
theorem decisionNoninterference_witness :
    (validate (mkReview (J.str "wa") (mkObject [("team", J.str "alpha")]
        [J.obj [("securityContext", J.obj [("privileged", J.bool false)]),
          ("image", J.str "nginx")]]))).map (fun r => (r.allowed, r.status)) =
      (validate (mkReview (J.str "wb") (mkObject [("team", J.str "beta")]
        [J.obj []]))).map (fun r => (r.allowed, r.status)) :=
  decisionNoninterference (J.str "wa") (J.str "wb")
    [("team", J.str "alpha")] [("team", J.str "beta")]
    [J.obj [("securityContext", J.obj [("privileged", J.bool false)]),
      ("image", J.str "nginx")]] [J.obj []]
    (by decide) (by decide)
    (by
      intro k
      unfold hasKey jLookup
      by_cases hq : ("team" : String) = k <;> simp [hq])
    rfl
